import Mathlib

set_option maxHeartbeats 1000000

/-!
Verification of the microstellar client facade (src/microstellar.go).

The facade file is the authority for the facade operations (FundAccount,
Pay, PayNative, LoadAccount, CreateTrustLine, RemoveTrustLine,
SetMasterWeight, AddSigner, RemoveSigner, SetThresholds).  The data model
(Asset, Payment, Account) and the transaction pipeline (Tx with Build,
Sign, Submit, Err) live in other files of the repository that are not
available; those are modelled from the specification, as marked on each
definition.  Network effects are made explicit through a TxEnv parameter
that supplies the outcomes the live network would produce, and each
pipeline state records how many network round trips were made.
-/

/-- Modelled from the spec: Asset (defined outside the facade file)
identifies a native or credit asset by a code and an issuing address. -/
structure Asset where
  Code : String
  Issuer : String
deriving DecidableEq, Repr

/-- Modelled from the spec: IsNative holds exactly when both the code and
the issuer are empty. -/
def Asset.IsNative (a : Asset) : Bool :=
  a.Code == "" && a.Issuer == ""

/-- Modelled from the spec: the native asset has empty code and issuer. -/
def NativeAsset : Asset :=
  { Code := "", Issuer := "" }

/-- Modelled from the spec: a memo is of type None, Text or ID. -/
inductive MemoType where
  | memoNone
  | memoText
  | memoID
deriving DecidableEq, Repr

/-- Modelled from the spec: Payment (defined outside the facade file)
bundles source seed, target address, amount, asset, memo fields and an
optional ordered signer list. -/
structure Payment where
  sourceSeed : String
  targetAddress : String
  amount : String
  asset : Asset
  memoType : MemoType
  memoText : String
  memoID : Nat
  signerSeeds : List String
deriving DecidableEq, Repr

/-- Modelled from the spec: NewPayment builds the default Payment for a
native payment: native asset, no memo, empty signer list. -/
def NewPayment (sourceSeed : String) (targetAddress : String) (amount : String) : Payment :=
  { sourceSeed := sourceSeed
    targetAddress := targetAddress
    amount := amount
    asset := NativeAsset
    memoType := MemoType.memoNone
    memoText := ""
    memoID := 0
    signerSeeds := [] }

/-- Modelled from the spec: multisignature thresholds of an account. -/
structure Thresholds where
  low : Nat
  medium : Nat
  high : Nat
deriving DecidableEq, Repr

/-- Modelled from the spec: Account (defined outside the facade file) is a
read-only snapshot of ledger account state. -/
structure Account where
  address : String
  sequence : Nat
  balances : List (Asset × String)
  signers : List (String × Nat)
  thresholds : Thresholds
deriving DecidableEq, Repr

/-- Modelled from the spec: newAccount synthesizes an account snapshot with
zero-value defaults, used in fake mode. -/
def newAccount : Account :=
  { address := ""
    sequence := 0
    balances := []
    signers := []
    thresholds := { low := 0, medium := 0, high := 0 } }

/-- Modelled from the spec: the account payload returned by the network
transport for a successful load. -/
structure HorizonAccount where
  address : String
  sequence : Nat
  balances : List (Asset × String)
  signers : List (String × Nat)
  thresholds : Thresholds
deriving DecidableEq, Repr

/-- Modelled from the spec: newAccountFromHorizon converts a transport
account payload into an Account snapshot, field by field. -/
def newAccountFromHorizon (h : HorizonAccount) : Account :=
  { address := h.address
    sequence := h.sequence
    balances := h.balances
    signers := h.signers
    thresholds := h.thresholds }

/-- Modelled from the spec: a pipeline stage failure — build, sign or
submit — stored as the terminal error of a Tx. -/
inductive PipelineError where
  | buildError (msg : String)
  | signError (msg : String)
  | submitError (msg : String)
deriving DecidableEq, Repr

/-- Modelled from the spec: an account-load failure, distinguishing a
missing account from a transport failure. -/
inductive LoadError where
  | notFound (address : String)
  | transport (msg : String)
deriving DecidableEq, Repr

/-- A single payment-operation mutator, as handed to the operation
builder collaborator by Pay (src/microstellar.go lines 95-104). -/
inductive PaymentMut where
  | destination (addressOrSeed : String)
  | nativeAmount (amount : String)
  | creditAmount (code : String) (issuer : String) (amount : String)
deriving DecidableEq, Repr

/-- The operation and transaction mutators the facade constructs; the core
treats them as descriptors whose order and count it controls. -/
inductive TxMutator where
  | memoText (value : String)
  | memoID (value : Nat)
  | payment (muts : List PaymentMut)
  | createAccount (destination : String) (amount : String)
  | trust (code : String) (issuer : String) (limit : Option String)
  | removeTrust (code : String) (issuer : String)
  | masterWeight (weight : Nat)
  | addSigner (address : String) (weight : Nat)
  | removeSigner (address : String)
  | setThresholds (low : Nat) (medium : Nat) (high : Nat)
deriving DecidableEq, Repr

/-- Modelled from the spec: the outcomes the external network produces for
the pipeline stages in live mode.  Fake mode never consults these. -/
structure TxEnv where
  buildOutcome : Option PipelineError
  signOutcome : List String → Option PipelineError
  submitOutcome : Option PipelineError
  loadOutcome : String → Except LoadError HorizonAccount

/-- Modelled from the spec: the transaction pipeline state (tx.go is
outside the facade file).  It records the network name and fake flag, the
envelope assembled by Build, every Sign invocation with its seeds, whether
Submit ran, the terminal error, and the number of network round trips. -/
structure Tx where
  networkName : String
  fake : Bool
  built : Option (String × List TxMutator)
  signCalls : List (List String)
  submitted : Bool
  err : Option PipelineError
  networkCalls : Nat

/-- Modelled from the spec: NewTx creates a fresh pipeline for the given
network; the sentinel name "fake" selects fake mode. -/
def NewTx (networkName : String) : Tx :=
  { networkName := networkName
    fake := networkName == "fake"
    built := none
    signCalls := []
    submitted := false
    err := none
    networkCalls := 0 }

/-- Modelled from the spec: Build assigns the source and the operations to
the envelope; in live mode it resolves the source against the network (one
round trip) and records the first failure; in fake mode it succeeds
trivially with no network I/O. -/
def Tx.BuildTx (tx : Tx) (source : String) (muts : List TxMutator) (env : TxEnv) : Tx :=
  { tx with
    built := some (source, muts)
    networkCalls := tx.networkCalls + (if tx.fake then 0 else 1)
    err := if tx.fake then tx.err
           else if tx.err.isSome then tx.err else env.buildOutcome }

/-- Modelled from the spec: Sign appends one signature set per invocation;
signing is local (no network I/O); in fake mode it succeeds trivially, and
an earlier failure is preserved as the terminal error. -/
def Tx.SignTx (tx : Tx) (seeds : List String) (env : TxEnv) : Tx :=
  { tx with
    signCalls := tx.signCalls ++ [seeds]
    err := if tx.fake then tx.err
           else if tx.err.isSome then tx.err else env.signOutcome seeds }

/-- Modelled from the spec: Submit sends the envelope to the network; it is
a no-op when the pipeline is already in an error state, and in fake mode it
succeeds trivially with no network I/O. -/
def Tx.SubmitTx (tx : Tx) (env : TxEnv) : Tx :=
  { tx with
    submitted := true
    networkCalls := tx.networkCalls + (if tx.fake || tx.err.isSome then 0 else 1)
    err := if tx.fake then tx.err
           else if tx.err.isSome then tx.err else env.submitOutcome }

/-- Modelled from the spec: Err surfaces the pipeline's terminal error, or
none when every stage succeeded. -/
def Tx.ErrTx (tx : Tx) : Option PipelineError :=
  tx.err

/-- Modelled from the spec: sourceAccount wraps the seed-or-address string
identifying the envelope's source account (defined outside the facade
file). -/
def sourceAccount (addressOrSeed : String) : String :=
  addressOrSeed

/-- MicroStellar is the user handle to the network
(src/microstellar.go lines 26-29). -/
structure MicroStellar where
  networkName : String
  fake : Bool
deriving DecidableEq, Repr

/-- New returns a new MicroStellar client for the given network name
(src/microstellar.go lines 32-37). -/
def New (networkName : String) : MicroStellar :=
  { networkName := networkName
    fake := networkName == "fake" }

/-- The observable outcome of one mutating facade call: the handle after
the call and the final pipeline state. -/
structure OpResult where
  handle : MicroStellar
  tx : Tx

/-- The mutator list handed to Build in the run, empty if Build never
ran. -/
def OpResult.builtMuts (r : OpResult) : List TxMutator :=
  (r.tx.built.map Prod.snd).getD []

/-- FundAccount, traced end to end (src/microstellar.go lines 52-68). -/
def FundAccountRun (ms : MicroStellar) (sourceSeed : String) (address : String)
    (amount : String) (signers : List String) (env : TxEnv) : OpResult :=
  let payment := TxMutator.createAccount address amount
  let tx := NewTx ms.networkName
  let tx := tx.BuildTx (sourceAccount sourceSeed) [payment] env
  let tx := if signers.length > 0 then tx.SignTx signers env
            else tx.SignTx [sourceSeed] env
  let tx := tx.SubmitTx env
  { handle := ms, tx := tx }

/-- FundAccount (src/microstellar.go lines 52-68): returns tx.Err(). -/
def MicroStellar.FundAccount (ms : MicroStellar) (sourceSeed : String) (address : String)
    (amount : String) (signers : List String) (env : TxEnv) : Option PipelineError :=
  (FundAccountRun ms sourceSeed address amount signers env).tx.ErrTx

/-- The observable outcome of a LoadAccount call: the handle after the
call, the returned account or error, and the network round trips made. -/
structure LoadResult where
  handle : MicroStellar
  account : Option Account
  err : Option LoadError
  networkCalls : Nat

/-- LoadAccount, traced (src/microstellar.go lines 71-84): in fake mode it
returns the synthesized zero-value account with no network access;
otherwise it performs one client load and either propagates the error with
a nil account or converts the payload. -/
def LoadAccountRun (ms : MicroStellar) (address : String) (env : TxEnv) : LoadResult :=
  if ms.fake then
    { handle := ms, account := some newAccount, err := none, networkCalls := 0 }
  else
    match env.loadOutcome address with
    | Except.error e =>
        { handle := ms, account := none, err := some e, networkCalls := 1 }
    | Except.ok acc =>
        { handle := ms, account := some (newAccountFromHorizon acc), err := none,
          networkCalls := 1 }

/-- Pay, traced end to end (src/microstellar.go lines 92-125). -/
def PayRun (ms : MicroStellar) (payment : Payment) (env : TxEnv) : OpResult :=
  let txMuts : List TxMutator := []
  let paymentMuts : List PaymentMut := [PaymentMut.destination payment.targetAddress]
  let paymentMuts :=
    if payment.asset.IsNative then
      paymentMuts ++ [PaymentMut.nativeAmount payment.amount]
    else
      paymentMuts ++ [PaymentMut.creditAmount payment.asset.Code payment.asset.Issuer payment.amount]
  let txMuts :=
    match payment.memoType with
    | MemoType.memoText => txMuts ++ [TxMutator.memoText payment.memoText]
    | MemoType.memoID => txMuts ++ [TxMutator.memoID payment.memoID]
    | MemoType.memoNone => txMuts
  let txMuts := txMuts ++ [TxMutator.payment paymentMuts]
  let tx := NewTx ms.networkName
  let tx := tx.BuildTx (sourceAccount payment.sourceSeed) txMuts env
  let tx := if payment.signerSeeds.length > 0 then tx.SignTx payment.signerSeeds env
            else tx.SignTx [payment.sourceSeed] env
  let tx := tx.SubmitTx env
  { handle := ms, tx := tx }

/-- Pay (src/microstellar.go lines 92-125): returns tx.Err(). -/
def MicroStellar.Pay (ms : MicroStellar) (payment : Payment) (env : TxEnv) : Option PipelineError :=
  (PayRun ms payment env).tx.ErrTx

/-- PayNative (src/microstellar.go lines 87-89): delegates to Pay on the
default Payment built by NewPayment. -/
def MicroStellar.PayNative (ms : MicroStellar) (sourceSeed : String) (targetAddress : String)
    (amount : String) (env : TxEnv) : Option PipelineError :=
  ms.Pay (NewPayment sourceSeed targetAddress amount) env

/-- CreateTrustLine, traced end to end (src/microstellar.go lines
130-147): an empty limit string builds a trust operation with no limit. -/
def CreateTrustLineRun (ms : MicroStellar) (sourceSeed : String) (asset : Asset)
    (limit : String) (signers : List String) (env : TxEnv) : OpResult :=
  let tx := NewTx ms.networkName
  let tx :=
    if limit == "" then
      tx.BuildTx (sourceAccount sourceSeed) [TxMutator.trust asset.Code asset.Issuer none] env
    else
      tx.BuildTx (sourceAccount sourceSeed) [TxMutator.trust asset.Code asset.Issuer (some limit)] env
  let tx := if signers.length > 0 then tx.SignTx signers env
            else tx.SignTx [sourceSeed] env
  let tx := tx.SubmitTx env
  { handle := ms, tx := tx }

/-- CreateTrustLine (src/microstellar.go lines 130-147): returns
tx.Err(). -/
def MicroStellar.CreateTrustLine (ms : MicroStellar) (sourceSeed : String) (asset : Asset)
    (limit : String) (signers : List String) (env : TxEnv) : Option PipelineError :=
  (CreateTrustLineRun ms sourceSeed asset limit signers env).tx.ErrTx

/-- RemoveTrustLine, traced end to end (src/microstellar.go lines
151-163). -/
def RemoveTrustLineRun (ms : MicroStellar) (sourceSeed : String) (asset : Asset)
    (signers : List String) (env : TxEnv) : OpResult :=
  let tx := NewTx ms.networkName
  let tx := tx.BuildTx (sourceAccount sourceSeed) [TxMutator.removeTrust asset.Code asset.Issuer] env
  let tx := if signers.length > 0 then tx.SignTx signers env
            else tx.SignTx [sourceSeed] env
  let tx := tx.SubmitTx env
  { handle := ms, tx := tx }

/-- RemoveTrustLine (src/microstellar.go lines 151-163): returns
tx.Err(). -/
def MicroStellar.RemoveTrustLine (ms : MicroStellar) (sourceSeed : String) (asset : Asset)
    (signers : List String) (env : TxEnv) : Option PipelineError :=
  (RemoveTrustLineRun ms sourceSeed asset signers env).tx.ErrTx

/-- SetMasterWeight, traced end to end (src/microstellar.go lines
167-179). -/
def SetMasterWeightRun (ms : MicroStellar) (sourceSeed : String) (weight : Nat)
    (signers : List String) (env : TxEnv) : OpResult :=
  let tx := NewTx ms.networkName
  let tx := tx.BuildTx (sourceAccount sourceSeed) [TxMutator.masterWeight weight] env
  let tx := if signers.length > 0 then tx.SignTx signers env
            else tx.SignTx [sourceSeed] env
  let tx := tx.SubmitTx env
  { handle := ms, tx := tx }

/-- SetMasterWeight (src/microstellar.go lines 167-179): returns
tx.Err(). -/
def MicroStellar.SetMasterWeight (ms : MicroStellar) (sourceSeed : String) (weight : Nat)
    (signers : List String) (env : TxEnv) : Option PipelineError :=
  (SetMasterWeightRun ms sourceSeed weight signers env).tx.ErrTx

/-- AddSigner, traced end to end (src/microstellar.go lines 183-195). -/
def AddSignerRun (ms : MicroStellar) (sourceSeed : String) (signerAddress : String)
    (signerWeight : Nat) (signers : List String) (env : TxEnv) : OpResult :=
  let tx := NewTx ms.networkName
  let tx := tx.BuildTx (sourceAccount sourceSeed) [TxMutator.addSigner signerAddress signerWeight] env
  let tx := if signers.length > 0 then tx.SignTx signers env
            else tx.SignTx [sourceSeed] env
  let tx := tx.SubmitTx env
  { handle := ms, tx := tx }

/-- AddSigner (src/microstellar.go lines 183-195): returns tx.Err(). -/
def MicroStellar.AddSigner (ms : MicroStellar) (sourceSeed : String) (signerAddress : String)
    (signerWeight : Nat) (signers : List String) (env : TxEnv) : Option PipelineError :=
  (AddSignerRun ms sourceSeed signerAddress signerWeight signers env).tx.ErrTx

/-- RemoveSigner, traced end to end (src/microstellar.go lines
200-212). -/
def RemoveSignerRun (ms : MicroStellar) (sourceSeed : String) (signerAddress : String)
    (signers : List String) (env : TxEnv) : OpResult :=
  let tx := NewTx ms.networkName
  let tx := tx.BuildTx (sourceAccount sourceSeed) [TxMutator.removeSigner signerAddress] env
  let tx := if signers.length > 0 then tx.SignTx signers env
            else tx.SignTx [sourceSeed] env
  let tx := tx.SubmitTx env
  { handle := ms, tx := tx }

/-- RemoveSigner (src/microstellar.go lines 200-212): returns tx.Err(). -/
def MicroStellar.RemoveSigner (ms : MicroStellar) (sourceSeed : String) (signerAddress : String)
    (signers : List String) (env : TxEnv) : Option PipelineError :=
  (RemoveSignerRun ms sourceSeed signerAddress signers env).tx.ErrTx

/-- SetThresholds, traced end to end (src/microstellar.go lines
216-228). -/
def SetThresholdsRun (ms : MicroStellar) (sourceSeed : String) (low : Nat) (medium : Nat)
    (high : Nat) (signers : List String) (env : TxEnv) : OpResult :=
  let tx := NewTx ms.networkName
  let tx := tx.BuildTx (sourceAccount sourceSeed) [TxMutator.setThresholds low medium high] env
  let tx := if signers.length > 0 then tx.SignTx signers env
            else tx.SignTx [sourceSeed] env
  let tx := tx.SubmitTx env
  { handle := ms, tx := tx }

/-- SetThresholds (src/microstellar.go lines 216-228): returns
tx.Err(). -/
def MicroStellar.SetThresholds (ms : MicroStellar) (sourceSeed : String) (low : Nat)
    (medium : Nat) (high : Nat) (signers : List String) (env : TxEnv) : Option PipelineError :=
  (SetThresholdsRun ms sourceSeed low medium high signers env).tx.ErrTx

/-- An adversarial concrete environment in which every live network
interaction fails; fake-mode runs must ignore it entirely. -/
def envAllFail : TxEnv :=
  { buildOutcome := some (PipelineError.buildError "no such account")
    signOutcome := fun _ => some (PipelineError.signError "bad key material")
    submitOutcome := some (PipelineError.submitError "rejected")
    loadOutcome := fun a => Except.error (LoadError.notFound a) }

theorem Tx.buildTx_signCalls (tx : Tx) (s : String) (m : List TxMutator) (env : TxEnv) :
    (tx.BuildTx s m env).signCalls = tx.signCalls := rfl

theorem Tx.submitTx_signCalls (tx : Tx) (env : TxEnv) :
    (tx.SubmitTx env).signCalls = tx.signCalls := rfl

theorem Tx.signTx_signCalls (tx : Tx) (seeds : List String) (env : TxEnv) :
    (tx.SignTx seeds env).signCalls = tx.signCalls ++ [seeds] := rfl

theorem Tx.buildTx_built (tx : Tx) (s : String) (m : List TxMutator) (env : TxEnv) :
    (tx.BuildTx s m env).built = some (s, m) := rfl

theorem Tx.signTx_built (tx : Tx) (seeds : List String) (env : TxEnv) :
    (tx.SignTx seeds env).built = tx.built := rfl

theorem Tx.submitTx_built (tx : Tx) (env : TxEnv) :
    (tx.SubmitTx env).built = tx.built := rfl

/-- C1: every mutating facade operation invokes Sign exactly once — with
exactly the supplied signer seeds, in order, when the signer list is
non-empty, and with the primary seed as sole seed when it is empty; in the
non-empty case the primary parameter is not among the seeds signed with
unless the caller put it in the list itself. -/
theorem claim1_signer_resolution (ms : MicroStellar) (a b c : String)
    (asset : Asset) (limit : String) (w lo me hi : Nat) (p : Payment)
    (signers : List String) (env : TxEnv) :
    (FundAccountRun ms a b c signers env).tx.signCalls
        = (if signers.isEmpty then [[a]] else [signers])
    ∧ (PayRun ms p env).tx.signCalls
        = (if p.signerSeeds.isEmpty then [[p.sourceSeed]] else [p.signerSeeds])
    ∧ (CreateTrustLineRun ms a asset limit signers env).tx.signCalls
        = (if signers.isEmpty then [[a]] else [signers])
    ∧ (RemoveTrustLineRun ms a asset signers env).tx.signCalls
        = (if signers.isEmpty then [[a]] else [signers])
    ∧ (SetMasterWeightRun ms a w signers env).tx.signCalls
        = (if signers.isEmpty then [[a]] else [signers])
    ∧ (AddSignerRun ms a b w signers env).tx.signCalls
        = (if signers.isEmpty then [[a]] else [signers])
    ∧ (RemoveSignerRun ms a b signers env).tx.signCalls
        = (if signers.isEmpty then [[a]] else [signers])
    ∧ (SetThresholdsRun ms a lo me hi signers env).tx.signCalls
        = (if signers.isEmpty then [[a]] else [signers])
    ∧ (a ∉ signers → signers ≠ [] →
        ∀ s ∈ (FundAccountRun ms a b c signers env).tx.signCalls, a ∉ s) := by
  have hfund : (FundAccountRun ms a b c signers env).tx.signCalls
      = (if signers.isEmpty then [[a]] else [signers]) := by
    cases signers <;>
      simp [FundAccountRun, NewTx, Tx.BuildTx, Tx.SignTx, Tx.SubmitTx]
  refine ⟨hfund, ?_, ?_, ?_, ?_, ?_, ?_, ?_, ?_⟩
  · cases hp : p.signerSeeds <;>
      simp [PayRun, NewTx, Tx.BuildTx, Tx.SignTx, Tx.SubmitTx, hp]
  · cases signers <;>
      cases hl : (limit == "") <;>
        simp [CreateTrustLineRun, NewTx, Tx.BuildTx, Tx.SignTx, Tx.SubmitTx, hl]
  · cases signers <;>
      simp [RemoveTrustLineRun, NewTx, Tx.BuildTx, Tx.SignTx, Tx.SubmitTx]
  · cases signers <;>
      simp [SetMasterWeightRun, NewTx, Tx.BuildTx, Tx.SignTx, Tx.SubmitTx]
  · cases signers <;>
      simp [AddSignerRun, NewTx, Tx.BuildTx, Tx.SignTx, Tx.SubmitTx]
  · cases signers <;>
      simp [RemoveSignerRun, NewTx, Tx.BuildTx, Tx.SignTx, Tx.SubmitTx]
  · cases signers <;>
      simp [SetThresholdsRun, NewTx, Tx.BuildTx, Tx.SignTx, Tx.SubmitTx]
  · intro hnot hne s hs
    rw [hfund] at hs
    have hie : signers.isEmpty = false := by
      cases signers
      · exact absurd rfl hne
      · rfl
    simp [hie] at hs
    subst hs
    exact hnot

/-- Witness for C1 at concrete inputs: with a non-empty signer list the
one Sign call carries exactly that list and the primary parameter signs
nothing. -/
theorem claim1_witness :
    (FundAccountRun (New "fake") "SEEDA" "ADDRB" "1.5" ["K1", "K2"] envAllFail).tx.signCalls
        = [["K1", "K2"]]
    ∧ ∀ s ∈ (FundAccountRun (New "fake") "SEEDA" "ADDRB" "1.5" ["K1", "K2"] envAllFail).tx.signCalls,
        "SEEDA" ∉ s := by
  have h := claim1_signer_resolution (New "fake") "SEEDA" "ADDRB" "1.5"
    NativeAsset "" 0 0 0 0 (NewPayment "SEEDA" "ADDRB" "1.5") ["K1", "K2"] envAllFail
  exact ⟨by simpa using h.1,
    h.2.2.2.2.2.2.2.2 (by decide) (by decide)⟩

/-- C2: the payment operation emitted by Pay is the last mutator of the
built envelope; it carries the destination together with a native amount
when the asset is native, and otherwise a credit amount whose code and
issuer are the asset's own, unchanged, together with the payment amount. -/
theorem claim2_payment_asset_branch (ms : MicroStellar) (p : Payment) (env : TxEnv) :
    (PayRun ms p env).builtMuts.getLast?
      = some (TxMutator.payment
          [PaymentMut.destination p.targetAddress,
           if p.asset.IsNative then PaymentMut.nativeAmount p.amount
           else PaymentMut.creditAmount p.asset.Code p.asset.Issuer p.amount]) := by
  cases hn : p.asset.IsNative <;> cases hm : p.memoType <;>
    simp [PayRun, OpResult.builtMuts, NewTx, Tx.BuildTx, Tx.SignTx, Tx.SubmitTx, hn, hm] <;>
      split <;> rfl

/-- C3: the envelope Pay builds is exactly the memo mutator selected by the
payment's memo type — one mutator for MemoText or MemoID, none otherwise —
followed by the payment operation, so any memo strictly precedes the
payment operation. -/
theorem claim3_memo_order (ms : MicroStellar) (p : Payment) (env : TxEnv) :
    (PayRun ms p env).builtMuts
      = (match p.memoType with
         | MemoType.memoText => [TxMutator.memoText p.memoText]
         | MemoType.memoID => [TxMutator.memoID p.memoID]
         | MemoType.memoNone => [])
        ++ [TxMutator.payment
              (PaymentMut.destination p.targetAddress ::
                (if p.asset.IsNative then [PaymentMut.nativeAmount p.amount]
                 else [PaymentMut.creditAmount p.asset.Code p.asset.Issuer p.amount]))] := by
  cases hn : p.asset.IsNative <;> cases hm : p.memoType <;>
    simp [PayRun, OpResult.builtMuts, NewTx, Tx.BuildTx, Tx.SignTx, Tx.SubmitTx, hn, hm] <;>
      split <;> rfl

/-- C4: every mutating facade operation returns exactly the terminal error
of the pipeline instance it drove — the value of Err on the final Tx state
— with no translation or substitution, hence nil exactly when the pipeline
recorded no error. -/
theorem claim4_returns_pipeline_err (ms : MicroStellar) (a b c limit : String)
    (asset : Asset) (w lo me hi : Nat) (p : Payment)
    (signers : List String) (env : TxEnv) :
    ms.FundAccount a b c signers env = (FundAccountRun ms a b c signers env).tx.err
    ∧ ms.Pay p env = (PayRun ms p env).tx.err
    ∧ ms.CreateTrustLine a asset limit signers env
        = (CreateTrustLineRun ms a asset limit signers env).tx.err
    ∧ ms.RemoveTrustLine a asset signers env
        = (RemoveTrustLineRun ms a asset signers env).tx.err
    ∧ ms.SetMasterWeight a w signers env
        = (SetMasterWeightRun ms a w signers env).tx.err
    ∧ ms.AddSigner a b w signers env
        = (AddSignerRun ms a b w signers env).tx.err
    ∧ ms.RemoveSigner a b signers env
        = (RemoveSignerRun ms a b signers env).tx.err
    ∧ ms.SetThresholds a lo me hi signers env
        = (SetThresholdsRun ms a lo me hi signers env).tx.err :=
  ⟨rfl, rfl, rfl, rfl, rfl, rfl, rfl, rfl⟩

/-- C5: on a handle in fake mode, LoadAccount returns a zero-valued
synthesized account and no error for every address string, valid or not,
and performs no network access. -/
theorem claim5_fake_loadaccount (ms : MicroStellar) (address : String) (env : TxEnv)
    (h : ms.fake = true) :
    LoadAccountRun ms address env
      = { handle := ms
          account := some { address := "", sequence := 0, balances := [], signers := [],
                            thresholds := { low := 0, medium := 0, high := 0 } }
          err := none
          networkCalls := 0 } := by
  simp [LoadAccountRun, h, newAccount]

/-- Witness for C5: on the fake handle, loading a syntactically invalid
address yields the zero-valued account, no error and no network access,
even in an environment where every live load fails. -/
theorem claim5_witness :
    LoadAccountRun (New "fake") "not a valid address" envAllFail
      = { handle := New "fake"
          account := some { address := "", sequence := 0, balances := [], signers := [],
                            thresholds := { low := 0, medium := 0, high := 0 } }
          err := none
          networkCalls := 0 } :=
  claim5_fake_loadaccount (New "fake") "not a valid address" envAllFail (by decide)

/-- C6: CreateTrustLine with an empty limit string builds a trust operation
with no limit mutator, while a non-empty limit string builds a trust
operation carrying that limit, and the two operation descriptors are
distinct. -/
theorem claim6_trustline_limit (ms : MicroStellar) (seed : String) (asset : Asset)
    (limit : String) (signers : List String) (env : TxEnv) (h : limit ≠ "") :
    (CreateTrustLineRun ms seed asset "" signers env).builtMuts
        = [TxMutator.trust asset.Code asset.Issuer none]
    ∧ (CreateTrustLineRun ms seed asset limit signers env).builtMuts
        = [TxMutator.trust asset.Code asset.Issuer (some limit)]
    ∧ TxMutator.trust asset.Code asset.Issuer none
        ≠ TxMutator.trust asset.Code asset.Issuer (some limit) := by
  have hb : (limit == "") = false := by simp [h]
  refine ⟨?_, ?_, by simp⟩
  · cases signers <;>
      simp [CreateTrustLineRun, OpResult.builtMuts, NewTx, Tx.BuildTx, Tx.SignTx, Tx.SubmitTx]
  · cases signers <;>
      simp [CreateTrustLineRun, OpResult.builtMuts, NewTx, Tx.BuildTx, Tx.SignTx, Tx.SubmitTx, hb]

/-- Witness for C6: a concrete non-empty limit produces the limited trust
operation, and the unlimited and limited descriptors differ. -/
theorem claim6_witness :
    (CreateTrustLineRun (New "test") "SEEDA" { Code := "USD", Issuer := "GISSUER" }
        "1000" [] envAllFail).builtMuts
        = [TxMutator.trust "USD" "GISSUER" (some "1000")]
    ∧ TxMutator.trust "USD" "GISSUER" none ≠ TxMutator.trust "USD" "GISSUER" (some "1000") :=
  ⟨(claim6_trustline_limit (New "test") "SEEDA" { Code := "USD", Issuer := "GISSUER" }
      "1000" [] envAllFail (by decide)).2.1,
   (claim6_trustline_limit (New "test") "SEEDA" { Code := "USD", Issuer := "GISSUER" }
      "1000" [] envAllFail (by decide)).2.2⟩

/-- C7: PayNative on a handle constructed in fake mode returns nil for
every source seed, target address and amount, and the pipeline run makes
no network round trip, whatever outcomes the live network would
produce. -/
theorem claim7_fake_paynative (ms : MicroStellar) (s t a : String) (env : TxEnv)
    (h : ms.networkName = "fake") :
    ms.PayNative s t a env = none
    ∧ (PayRun ms (NewPayment s t a) env).tx.networkCalls = 0 := by
  constructor <;>
    simp [MicroStellar.PayNative, MicroStellar.Pay, Tx.ErrTx, PayRun, NewPayment,
      NativeAsset, Asset.IsNative, NewTx, Tx.BuildTx, Tx.SignTx, Tx.SubmitTx, h]

/-- Witness for C7: a concrete fake-mode native payment returns nil and
touches the network zero times, in an environment where every live
interaction fails. -/
theorem claim7_witness :
    (New "fake").PayNative "SEEDA" "ADDRB" "2.5" envAllFail = none
    ∧ (PayRun (New "fake") (NewPayment "SEEDA" "ADDRB" "2.5") envAllFail).tx.networkCalls = 0 :=
  claim7_fake_paynative (New "fake") "SEEDA" "ADDRB" "2.5" envAllFail rfl

/-- C8: New sets the fake flag exactly when the network name is the
sentinel "fake" and stores the name unchanged, and no facade operation
changes the handle it was invoked on. -/
theorem claim8_handle_immutable (n : String) (ms : MicroStellar) (a b c limit : String)
    (asset : Asset) (w lo me hi : Nat) (p : Payment) (signers : List String) (env : TxEnv) :
    (New n).fake = (n == "fake")
    ∧ (New n).networkName = n
    ∧ (FundAccountRun ms a b c signers env).handle = ms
    ∧ (PayRun ms p env).handle = ms
    ∧ (CreateTrustLineRun ms a asset limit signers env).handle = ms
    ∧ (RemoveTrustLineRun ms a asset signers env).handle = ms
    ∧ (SetMasterWeightRun ms a w signers env).handle = ms
    ∧ (AddSignerRun ms a b w signers env).handle = ms
    ∧ (RemoveSignerRun ms a b signers env).handle = ms
    ∧ (SetThresholdsRun ms a lo me hi signers env).handle = ms
    ∧ (LoadAccountRun ms a env).handle = ms := by
  refine ⟨rfl, rfl, rfl, rfl, rfl, rfl, rfl, rfl, rfl, rfl, ?_⟩
  simp only [LoadAccountRun]
  split
  · rfl
  · split <;> rfl

/-- C9: LoadAccount returns exactly one of a present account with no
error, or no account with an error present — never both and never
neither. -/
theorem claim9_load_exclusive (ms : MicroStellar) (address : String) (env : TxEnv) :
    ((LoadAccountRun ms address env).account.isSome = true
        ∧ (LoadAccountRun ms address env).err = none)
    ∨ ((LoadAccountRun ms address env).account = none
        ∧ (LoadAccountRun ms address env).err.isSome = true) := by
  simp only [LoadAccountRun]
  split
  · exact Or.inl ⟨rfl, rfl⟩
  · split
    · exact Or.inr ⟨rfl, rfl⟩
    · exact Or.inl ⟨rfl, rfl⟩

/-- C10: PayNative is extensionally the general payment path applied to
the default Payment — native asset, no memo, empty signer list — built
from its three arguments. -/
theorem claim10_paynative_refines_pay (ms : MicroStellar) (s t a : String) (env : TxEnv) :
    ms.PayNative s t a env
      = ms.Pay { sourceSeed := s
                 targetAddress := t
                 amount := a
                 asset := { Code := "", Issuer := "" }
                 memoType := MemoType.memoNone
                 memoText := ""
                 memoID := 0
                 signerSeeds := [] } env := rfl
